import Mathlib

/-!
Verification development for the pacman_x16 developer-feedback orchestrator
(`tools/ai_dev_tool.py`, `tools/development_loop.py`).

The Python functions are shallowly embedded as pure Lean functions over an
explicit environment describing the behaviour of the external world
(filesystem checks, the spawned emulator process, the capture utility, the
`pkill` stop command).  Each external side effect performed by the code is
recorded in an action trace, in the order the code performs it, so that
"X happens before the function returns" becomes "X occurs in the trace".

Wall-clock timestamp strings (`datetime.now()...`) are not modelled: no claim
refers to them and they influence no control flow.
-/

namespace PacmanX16

/-- Terminal/placeholder values of `session_data["status"]` in
`run_emulator_with_capture` (tools/ai_dev_tool.py lines 95, 104, 142, 186,
200, 204). -/
inductive Status where
  | unknown
  | program_not_found
  | emulator_exited_early
  | completed
  | force_killed
  | error
  deriving DecidableEq, Repr

/-- One entry of `session_data["screenshots"]` (tools/ai_dev_tool.py lines
165-169): `{"time": capture_time, "file": str(screenshot_file), "step": i+1}`. -/
structure Capture where
  time : Int
  file : String
  step : Nat
  deriving DecidableEq, Repr

/-- The `session_data` dict built by `run_emulator_with_capture`
(tools/ai_dev_tool.py lines 86-98).  The `error` key is only added on the
exception path (line 205), hence an `Option`.  The `timestamp` key (a
wall-clock string) is omitted: no claim mentions it. -/
structure SessionData where
  session_id : String
  program : String
  duration : Int
  screenshots : List Capture
  gif_recording : Option String
  emulator_output : String
  emulator_stderr : String
  status : Status
  program_exists : Bool
  emulator_pid : Option Nat
  error : Option String
  deriving DecidableEq, Repr

/-- Result of the `subprocess.Popen` spawn call (tools/ai_dev_tool.py lines
122-128): either a process id, or an exception message (caught by the
`except Exception` handler at line 203). -/
inductive SpawnResult where
  | ok (pid : Nat)
  | exc (msg : String)
  deriving DecidableEq, Repr

/-- External side effects of `run_emulator_with_capture`, in program order:
the spawn attempt (line 122), each `pkill x16emu` invocation (lines 185 and
210), and the session-artifact write (lines 215-217, file named by the
session id). -/
inductive Action where
  | spawn
  | pkill
  | saveSession (file : String)
  deriving DecidableEq, Repr, BEq

/-- Behaviour of the external world during one `run_emulator_with_capture`
call.  `capture_file i` is the value returned by `capture_screenshot` for the
0-based loop index `i` (`none` = the capture failed and returned `None`;
`capture_screenshot` itself catches all exceptions, lines 231-243).
`phase_exc = some (k, msg)` means an unexpected exception with message `msg`
escapes the capture/drain phase after the first `k` loop iterations have
completed; it is caught by the outer `except Exception` handler (line 203).
`pkill_ok` is whether the stop command at line 185 completes without raising.
`gif_exists` is whether the recording file exists at the end-of-run check
(line 190); the code consults it only to print an announcement. -/
structure EmuEnv where
  program_exists : Bool
  spawn : SpawnResult
  early_exit : Bool
  early_stdout : String
  early_stderr : String
  capture_file : Nat → Option String
  phase_exc : Option (Nat × String)
  drain_timeout : Bool
  drain_stdout : String
  pkill_ok : Bool
  gif_exists : Bool

/-- `gif_path = self.screenshots_dir / f"recording_{self.session_id}.gif"`
(tools/ai_dev_tool.py lines 111-112); the project-directory prefix is
elided. -/
def gifRecordingPath (sid : String) : String :=
  "dev_screenshots/recording_" ++ sid ++ ".gif"

/-- `session_file = self.logs_dir / f"session_{self.session_id}.json"`
(tools/ai_dev_tool.py line 215). -/
def sessionLogPath (sid : String) : String :=
  "dev_logs/session_" ++ sid ++ ".json"

/-- The hard-coded capture schedule `screenshot_times = [1, 3, 5, 8, 10]`
(tools/ai_dev_tool.py line 158). -/
def screenshotTimes : List Int := [1, 3, 5, 8, 10]

/-- One iteration of the capture loop at 0-based index `i` and offset `t`
(tools/ai_dev_tool.py lines 160-169): if `capture_time <= duration`, invoke
`capture_screenshot`; an entry is produced only when a file comes back. -/
def captureAt (duration : Int) (cap : Nat → Option String) (i : Nat) (t : Int) :
    Option Capture :=
  if t ≤ duration then
    (cap i).map (fun f => { time := t, file := f, step := i + 1 })
  else
    none

/-- The capture loop of tools/ai_dev_tool.py lines 160-169, generic in the
offset list (the code instantiates it with `screenshotTimes`); `i` is the
`enumerate` counter. -/
def captureLoopAux (duration : Int) (cap : Nat → Option String) :
    List Int → Nat → List Capture
  | [], _ => []
  | t :: rest, i =>
      (captureAt duration cap i t).toList ++ captureLoopAux duration cap rest (i + 1)

/-- The full capture loop, starting from index 0. -/
def captureLoop (times : List Int) (duration : Int) (cap : Nat → Option String) :
    List Capture :=
  captureLoopAux duration cap times 0

/-- Shallow embedding of `X16DevTool.run_emulator_with_capture`
(tools/ai_dev_tool.py lines 82-219).  Returns the `session_data` dict the
Python function returns, paired with the trace of external actions in the
order the code performs them (the session-artifact write, when present, is
the last action before returning). -/
def runEmulatorWithCapture (sid program : String) (duration : Int) (env : EmuEnv) :
    SessionData × List Action :=
  -- lines 86-98: the initial session_data dict
  let base : SessionData :=
    { session_id := sid, program := program, duration := duration,
      screenshots := [], gif_recording := none,
      emulator_output := "", emulator_stderr := "",
      status := .unknown, program_exists := false,
      emulator_pid := none, error := none }
  -- lines 100-106: program-existence check, early return (no save)
  if env.program_exists then
    -- lines 110-116: the gif path is attached unconditionally, before spawn
    let base := { base with program_exists := true,
                            gif_recording := some (gifRecordingPath sid) }
    match env.spawn with
    | .exc msg =>
        -- spawn raised: outer handler (lines 203-212), then save (214-217)
        ({ base with status := .error, error := some msg },
         [.spawn, .pkill, .saveSession (sessionLogPath sid)])
    | .ok pid =>
        let base := { base with emulator_pid := some pid }
        if env.early_exit then
          -- lines 137-146: drain, mark exited early, return (no save)
          ({ base with emulator_output := env.early_stdout,
                       emulator_stderr := env.early_stderr,
                       status := .emulator_exited_early },
           [.spawn])
        else
          match env.phase_exc with
          | some ke =>
              -- an unexpected exception escapes the capture/drain phase after
              -- ke.1 loop iterations: outer handler (lines 203-212: status
              -- "error", best-effort pkill), then save (214-217)
              ({ base with
                   screenshots :=
                     captureLoop (screenshotTimes.take ke.1) duration env.capture_file,
                   status := .error, error := some ke.2 },
               [.spawn, .pkill, .saveSession (sessionLogPath sid)])
          | none =>
              -- lines 157-181: capture loop, final sleep, output drain
              let shots := captureLoop screenshotTimes duration env.capture_file
              let outp :=
                if env.drain_timeout then "Emulator still running (timeout)"
                else env.drain_stdout
              -- lines 183-201: pkill; bare except sets status "force_killed"
              let st : Status := if env.pkill_ok then .completed else .force_killed
              ({ base with screenshots := shots, emulator_output := outp,
                           status := st },
               [.spawn, .pkill, .saveSession (sessionLogPath sid)])
  else
    ({ base with status := .program_not_found }, [])

/-! ### Scheduler timing (tools/ai_dev_tool.py lines 157-174) -/

/-- Python `max()` over a nonempty list of ints (`max(screenshot_times)`,
tools/ai_dev_tool.py line 172); returns 0 on `[]`, a case the code never
reaches (the schedule is a nonempty constant). -/
def listMaxPy : List Int → Int
  | [] => 0
  | t :: rest => rest.foldl max t

/-- The sleep performed after the capture loop (tools/ai_dev_tool.py lines
171-174): `remaining_time = duration - max(screenshot_times)`, slept only
when strictly positive (skipping the sleep equals sleeping 0). -/
def finalSleep (times : List Int) (duration : Int) : Int :=
  let remaining := duration - listMaxPy times
  if remaining > 0 then remaining else 0

/-- Modelled from the spec for comparison (spec.md section 4.3): after the
last executed capture offset, sleep the remainder of the total duration minus
that last executed offset, clamped to 0. -/
def specFinalSleep (times : List Int) (duration : Int) : Int :=
  max 0 (duration - listMaxPy (times.filter (· ≤ duration)))

/-- Total time slept inside the capture loop (tools/ai_dev_tool.py line 162):
each executed iteration sleeps `t - previous schedule entry` (`prev` starts
at 0; a skipped iteration sleeps nothing but still becomes the previous
entry, as `screenshot_times[i-1]` refers to the list, not to execution). -/
def loopSleepSum (duration : Int) : List Int → Int → Int
  | [], _ => 0
  | t :: rest, prev =>
      (if t ≤ duration then t - prev else 0) + loopSleepSum duration rest t

/-- Wall-clock times at which the code's capture loop fires its captures,
given `capDur i` = how long the `i`-th capture call itself takes.  Mirrors
tools/ai_dev_tool.py lines 160-163: each executed iteration sleeps exactly
`t - prev` (the fixed schedule difference, ignoring time spent inside the
previous capture call), then fires.  Arguments: remaining offsets, loop
index, previous schedule entry, current clock. -/
def codeFireAux (duration : Int) (capDur : Nat → Int) :
    List Int → Nat → Int → Int → List Int
  | [], _, _, _ => []
  | t :: rest, i, prev, clock =>
      if t ≤ duration then
        let fire := clock + (t - prev)
        fire :: codeFireAux duration capDur rest (i + 1) t (fire + capDur i)
      else
        codeFireAux duration capDur rest (i + 1) t clock

/-- Capture fire times of the code's scheduler, from clock 0. -/
def codeFireTimes (times : List Int) (duration : Int) (capDur : Nat → Int) :
    List Int :=
  codeFireAux duration capDur times 0 0 0

/-- Modelled from the spec for comparison (spec.md sections 4.3 and 9): the
drift-resistant scheduler sleeps `next offset - previous offset - time
actually elapsed since the previous capture fired`, clamped to 0.  Arguments:
remaining offsets, loop index, previous schedule entry, wall-clock of the
previous fire, current clock. -/
def specFireAux (duration : Int) (capDur : Nat → Int) :
    List Int → Nat → Int → Int → Int → List Int
  | [], _, _, _, _ => []
  | t :: rest, i, prev, prevFire, clock =>
      if t ≤ duration then
        let fire := clock + max 0 ((t - prev) - (clock - prevFire))
        fire :: specFireAux duration capDur rest (i + 1) t fire (fire + capDur i)
      else
        specFireAux duration capDur rest (i + 1) t prevFire clock

/-- Capture fire times of the spec's drift-resistant scheduler, from clock 0. -/
def specFireTimes (times : List Int) (duration : Int) (capDur : Nat → Int) :
    List Int :=
  specFireAux duration capDur times 0 0 0 0

/-! ### Build supervisor (tools/ai_dev_tool.py lines 36-80) -/

/-- Outcome of the `subprocess.run(["make", ...], timeout=30)` call
(tools/ai_dev_tool.py lines 49-55): completed with an exit code and output,
raised `TimeoutExpired`, or raised some other exception with message `msg`. -/
inductive BuildOutcome where
  | finished (returncode : Int) (stdout stderr : String)
  | timeout
  | exc (msg : String)
  deriving DecidableEq, Repr

/-- The `build_log` dict of `build_project` (tools/ai_dev_tool.py lines
40-46); `return_code` is only set when the build command finished (line 59).
The wall-clock `timestamp` key is omitted. -/
structure BuildRecord where
  command : String
  success : Bool
  output : String
  errors : String
  return_code : Option Int
  deriving DecidableEq, Repr

/-- External side effects of `build_project`: the build-command invocation
(line 49) and the build-record write (lines 76-78, file named by the session
id). -/
inductive BuildAction where
  | runBuild
  | saveBuildLog (file : String)
  deriving DecidableEq, Repr, BEq

/-- `log_file = self.logs_dir / f"build_{self.session_id}.json"`
(tools/ai_dev_tool.py line 76). -/
def buildLogPath (sid : String) : String :=
  "dev_logs/build_" ++ sid ++ ".json"

/-- Shallow embedding of `X16DevTool.build_project` (tools/ai_dev_tool.py
lines 36-80).  The Python function returns `build_log["success"]`; the
embedding returns the whole record plus the action trace (the record write is
always the last action before returning).  The function is total: every
failure mode of the build command is encoded in the record. -/
def buildProject (sid game : String) (outcome : BuildOutcome) :
    BuildRecord × List BuildAction :=
  let base : BuildRecord :=
    { command := "make GAME=" ++ game, success := false,
      output := "", errors := "", return_code := none }
  let record :=
    match outcome with
    | .finished rc out err =>
        { base with output := out, errors := err,
                    return_code := some rc, success := rc == 0 }
    | .timeout =>
        { base with errors := "Build timeout after 30 seconds" }
    | .exc msg =>
        { base with errors := msg }
  (record, [.runBuild, .saveBuildLog (buildLogPath sid)])

/-! ### Heuristic analyzer (tools/ai_dev_tool.py lines 245-299) -/

/-- The `analysis` dict of `analyze_session` (tools/ai_dev_tool.py lines
249-256).  `program_status` is initialised to `"unknown"` and never updated
by the code; the wall-clock `timestamp` key is omitted. -/
structure Analysis where
  session_id : String
  program_status : String
  screenshots_captured : Nat
  issues_detected : List String
  recommendations : List String
  deriving DecidableEq, Repr

/-- Character-list prefix test (needle, haystack). -/
def isPrefixOfCL : List Char → List Char → Bool
  | [], _ => true
  | _ :: _, [] => false
  | a :: as, b :: bs => a == b && isPrefixOfCL as bs

/-- Character-list infix test (needle, haystack). -/
def isInfixOfCL (needle : List Char) : List Char → Bool
  | [] => needle.isEmpty
  | c :: rest => isPrefixOfCL needle (c :: rest) || isInfixOfCL needle rest

/-- Python's `needle in s.lower()` for an already-lowercase needle
(tools/ai_dev_tool.py line 270). -/
def pyLowerContains (s needle : String) : Bool :=
  isInfixOfCL needle.data (s.data.map Char.toLower)

/-- The per-screenshot file-size checks of `analyze_session`
(tools/ai_dev_tool.py lines 273-281): `fs file = some size` models
`Path(file).exists()` returning true together with `stat().st_size`. -/
def sizeIssues (fs : String → Option Nat) (c : Capture) : List String :=
  match fs c.file with
  | none => []
  | some sz =>
      if sz < 1000 then
        ["Screenshot " ++ (toString c.step ++ " is unusually small")]
      else if sz > 20000000 then
        ["Screenshot " ++ (toString c.step ++ " is unusually large")]
      else []

/-- Shallow embedding of `X16DevTool.analyze_session` (tools/ai_dev_tool.py
lines 245-299).  `fs` models the filesystem for the per-screenshot size
checks.  Issues and recommendations are appended in the code's order. -/
def analyzeSession (fs : String → Option Nat) (s : SessionData) : Analysis :=
  -- lines 258-261: no screenshots captured
  let issues1 : List String :=
    if s.screenshots.length = 0 then ["No screenshots captured"] else []
  let recs1 : List String :=
    if s.screenshots.length = 0 then ["Check screencapture permissions"] else []
  -- lines 263-266: emulator status "error"
  let issues2 : List String :=
    if s.status = .error then
      ["Emulator error: " ++ s.error.getD "Unknown"] else []
  let recs2 : List String :=
    if s.status = .error then
      ["Check emulator installation and program file"] else []
  -- lines 268-271: "error" in emulator_output.lower(); stderr is not examined
  let issues3 : List String :=
    if pyLowerContains s.emulator_output "error" then
      ["Emulator reported errors"] else []
  -- lines 273-281: per-screenshot file-size checks
  let issues4 : List String := (s.screenshots.map (sizeIssues fs)).flatten
  { session_id := s.session_id,
    program_status := "unknown",
    screenshots_captured := s.screenshots.length,
    issues_detected := issues1 ++ issues2 ++ issues3 ++ issues4,
    recommendations := recs1 ++ recs2 }

/-! ### Claim C8 -/

/-- Claim C8: if the emulator process terminates within the post-spawn grace
delay, `run_emulator_with_capture` drains the available stdout/stderr into
the session and returns with status `emulator_exited_early` and an empty
capture list, regardless of schedule contents (the capture loop is never
reached, for every possible capture oracle). -/
theorem c8_exited_early (sid program : String) (duration : Int) (pid : Nat)
    (eo es ds : String) (cf : Nat → Option String) (ph : Option (Nat × String))
    (dt pk ge : Bool) :
    runEmulatorWithCapture sid program duration
        { program_exists := true, spawn := .ok pid, early_exit := true,
          early_stdout := eo, early_stderr := es, capture_file := cf,
          phase_exc := ph, drain_timeout := dt, drain_stdout := ds,
          pkill_ok := pk, gif_exists := ge } =
      ({ session_id := sid, program := program, duration := duration,
         screenshots := [], gif_recording := some (gifRecordingPath sid),
         emulator_output := eo, emulator_stderr := es,
         status := .emulator_exited_early, program_exists := true,
         emulator_pid := some pid, error := none },
       [Action.spawn]) := rfl

/-! ### Claim C9 -/

/-- Claim C9: `build_project` is total (never raises past its boundary) and
on every outcome of the external build command — finished with an exit code,
timed out, or raised any other exception — it returns the build record with
the stated fields and its trace ends with the build-record write (keyed by
the session id), performed immediately before returning. -/
theorem c9_build_never_raises (sid game out err msg : String) (rc : Int) :
    buildProject sid game (.finished rc out err) =
      ({ command := "make GAME=" ++ game, success := rc == 0, output := out,
         errors := err, return_code := some rc },
       [.runBuild, .saveBuildLog (buildLogPath sid)]) ∧
    buildProject sid game .timeout =
      ({ command := "make GAME=" ++ game, success := false, output := "",
         errors := "Build timeout after 30 seconds", return_code := none },
       [.runBuild, .saveBuildLog (buildLogPath sid)]) ∧
    buildProject sid game (.exc msg) =
      ({ command := "make GAME=" ++ game, success := false, output := "",
         errors := msg, return_code := none },
       [.runBuild, .saveBuildLog (buildLogPath sid)]) :=
  ⟨rfl, rfl, rfl⟩

/-! ### Claim C10 -/

/-- Claim C10: every session returned by `run_emulator_with_capture` carries
a status from the terminal set {program_not_found, emulator_exited_early,
completed, force_killed, error}; the initial placeholder `unknown` is never
observable in a returned session, for every behaviour of the external
world. -/
theorem c10_terminal_status (sid program : String) (duration : Int) (env : EmuEnv) :
    (runEmulatorWithCapture sid program duration env).1.status ≠ Status.unknown ∧
    (runEmulatorWithCapture sid program duration env).1.status ∈
      [Status.program_not_found, Status.emulator_exited_early, Status.completed,
       Status.force_killed, Status.error] := by
  obtain ⟨pe, sp, ee, eo, es, cf, ph, dt, ds, pk, ge⟩ := env
  cases pe <;> cases sp <;> cases ee <;> cases ph <;> cases pk <;>
    simp [runEmulatorWithCapture]

/-! ### Claim C1 -/

/-- Claim C1 is refuted as stated: a run in which the emulator was
successfully spawned (pid 42 recorded) but exited during the grace delay
returns without any emulator-stop invocation — the trace contains zero
`pkill` actions (tools/ai_dev_tool.py line 146 returns before line 185). -/
theorem c1_counterexample :
    (runEmulatorWithCapture "20250101_120000" "pacman.prg" 10
        { program_exists := true, spawn := .ok 42, early_exit := true,
          early_stdout := "", early_stderr := "segfault", capture_file := fun _ => none,
          phase_exc := none, drain_timeout := false, drain_stdout := "",
          pkill_ok := true, gif_exists := false }).1.emulator_pid = some 42 ∧
    ((runEmulatorWithCapture "20250101_120000" "pacman.prg" 10
        { program_exists := true, spawn := .ok 42, early_exit := true,
          early_stdout := "", early_stderr := "segfault", capture_file := fun _ => none,
          phase_exc := none, drain_timeout := false, drain_stdout := "",
          pkill_ok := true, gif_exists := false }).2.count Action.pkill) = 0 :=
  ⟨rfl, rfl⟩

/-- Claim C1 (amended): for every orchestration run in which the emulator was
successfully spawned and was still alive at the grace-delay probe, exactly
one emulator-stop command (`pkill x16emu`) is invoked before
`run_emulator_with_capture` returns — even if the capture/schedule phase
raises an unexpected failure (any `phase_exc`); a failure of the stop command
itself only marks the session `force_killed`, with no separate force-stop
command issued. -/
theorem c1_stop_before_return (sid program : String) (duration : Int) (pid : Nat)
    (eo es ds : String) (cf : Nat → Option String) (ph : Option (Nat × String))
    (dt pk ge : Bool) :
    ((runEmulatorWithCapture sid program duration
        { program_exists := true, spawn := .ok pid, early_exit := false,
          early_stdout := eo, early_stderr := es, capture_file := cf,
          phase_exc := ph, drain_timeout := dt, drain_stdout := ds,
          pkill_ok := pk, gif_exists := ge }).2.count Action.pkill) = 1 := by
  cases ph <;> rfl

/-! ### Claim C2 -/

/-- Claim C2 is refuted as stated: on the `program_not_found` path the
session is returned with an empty action trace — in particular it is not
persisted (tools/ai_dev_tool.py line 106 returns before the write at lines
215-217). -/
theorem c2_counterexample :
    (runEmulatorWithCapture "20250101_120000" "pacman.prg" 10
        { program_exists := false, spawn := .ok 0, early_exit := false,
          early_stdout := "", early_stderr := "", capture_file := fun _ => none,
          phase_exc := none, drain_timeout := false, drain_stdout := "",
          pkill_ok := true, gif_exists := false }).1.status = .program_not_found ∧
    (runEmulatorWithCapture "20250101_120000" "pacman.prg" 10
        { program_exists := false, spawn := .ok 0, early_exit := false,
          early_stdout := "", early_stderr := "", capture_file := fun _ => none,
          phase_exc := none, drain_timeout := false, drain_stdout := "",
          pkill_ok := true, gif_exists := false }).2 = [] :=
  ⟨rfl, rfl⟩

/-- Claim C2 (amended): the session-artifact write (keyed by the session id)
occurs before `run_emulator_with_capture` returns exactly on the runs that
proceed past both the program-existence check and the grace-delay probe —
i.e. on the `completed`, `force_killed` and `error` outcomes, including the
spawn-failure path; on the `program_not_found` and `emulator_exited_early`
outcomes the session is returned without being persisted. -/
theorem c2_save_iff (sid program : String) (duration : Int) (env : EmuEnv) :
    (Action.saveSession (sessionLogPath sid) ∈
        (runEmulatorWithCapture sid program duration env).2) ↔
      (env.program_exists = true ∧
        ((∃ m, env.spawn = SpawnResult.exc m) ∨ env.early_exit = false)) := by
  obtain ⟨pe, sp, ee, eo, es, cf, ph, dt, ds, pk, ge⟩ := env
  cases pe <;> cases sp <;> cases ee <;> cases ph <;>
    simp [runEmulatorWithCapture]

/-! ### Claim C3 -/

/-- Claim C3 is refuted as stated: a completed run in which the recording
file does not exist at the end of the run (the environment's existence check
answers false) still returns a session whose recording reference is
non-null — the reference is attached before the emulator is even spawned
(tools/ai_dev_tool.py line 116), and lines 190-197 only consult the
filesystem to print an announcement. -/
theorem c3_counterexample :
    (runEmulatorWithCapture "20250101_120000" "pacman.prg" 10
        { program_exists := true, spawn := .ok 42, early_exit := false,
          early_stdout := "", early_stderr := "", capture_file := fun _ => some "shot.png",
          phase_exc := none, drain_timeout := false, drain_stdout := "",
          pkill_ok := true, gif_exists := false }).1.status = .completed ∧
    (runEmulatorWithCapture "20250101_120000" "pacman.prg" 10
        { program_exists := true, spawn := .ok 42, early_exit := false,
          early_stdout := "", early_stderr := "", capture_file := fun _ => some "shot.png",
          phase_exc := none, drain_timeout := false, drain_stdout := "",
          pkill_ok := true, gif_exists := false }).1.gif_recording =
      some "dev_screenshots/recording_20250101_120000.gif" :=
  ⟨rfl, rfl⟩

/-- Claim C3 (amended): the session's recording reference is attached
unconditionally before the spawn, as soon as the program file is known to
exist: it equals the planned recording path whenever the program exists and
is null otherwise, independently of whether the recording file exists at the
end of the run. -/
theorem c3_gif_unconditional (sid program : String) (duration : Int) (env : EmuEnv) :
    (runEmulatorWithCapture sid program duration env).1.gif_recording =
      (if env.program_exists then some (gifRecordingPath sid) else none) := by
  obtain ⟨pe, sp, ee, eo, es, cf, ph, dt, ds, pk, ge⟩ := env
  cases pe <;> cases sp <;> cases ee <;> cases ph <;>
    simp [runEmulatorWithCapture]

/-! ### Claim C4 -/

/-- A successful capture at loop index `i` carries step index `i + 1`. -/
theorem captureAt_eq_some {duration : Int} {cap : Nat → Option String} {i : Nat}
    {t : Int} {c : Capture} (h : captureAt duration cap i t = some c) :
    c.step = i + 1 := by
  unfold captureAt at h
  split at h
  · rcases Option.map_eq_some'.mp h with ⟨f, -, rfl⟩
    rfl
  · exact absurd h (by simp)

/-- Every capture produced by the loop starting at index `i` has a step index
in `(i, i + length]`. -/
theorem captureLoopAux_bounds (duration : Int) (cap : Nat → Option String) :
    ∀ (l : List Int) (i : Nat), ∀ c ∈ captureLoopAux duration cap l i,
      i + 1 ≤ c.step ∧ c.step ≤ i + l.length := by
  intro l
  induction l with
  | nil => intro i c hc; simp [captureLoopAux] at hc
  | cons t rest ih =>
      intro i c hc
      simp only [captureLoopAux] at hc
      rcases List.mem_append.mp hc with h | h
      · rcases Option.mem_toList.mp h with h'
        have := captureAt_eq_some h'
        simp [List.length_cons, this]
      · have := ih (i + 1) c h
        simp only [List.length_cons]
        omega

/-- The step indices produced by the capture loop are strictly increasing. -/
theorem captureLoopAux_pairwise (duration : Int) (cap : Nat → Option String) :
    ∀ (l : List Int) (i : Nat),
      (captureLoopAux duration cap l i).Pairwise (fun a b => a.step < b.step) := by
  intro l
  induction l with
  | nil => intro i; exact List.Pairwise.nil
  | cons t rest ih =>
      intro i
      simp only [captureLoopAux]
      refine List.pairwise_append.mpr ⟨?_, ih (i + 1), ?_⟩
      · cases captureAt duration cap i t <;> simp
      · intro a ha b hb
        have hb' := captureLoopAux_bounds duration cap rest (i + 1) b hb
        rcases Option.mem_toList.mp ha with ha'
        have := captureAt_eq_some ha'
        omega

/-- Claim C4 is refuted as stated: with the code's schedule, duration 10 and
a capture oracle whose second capture fails, the capture list's step indices
are [1, 3, 4, 5] — the failed capture is omitted, leaving a gap, so the
indices are not of the form 1..k for any k ≤ 5. -/
theorem c4_counterexample :
    ((captureLoop [1, 3, 5, 8, 10] 10
        (fun i => if i = 1 then none else some "s.png")).map Capture.step
      = [1, 3, 4, 5]) ∧
    ¬ ∃ k, k ≤ 5 ∧
        ((captureLoop [1, 3, 5, 8, 10] 10
            (fun i => if i = 1 then none else some "s.png")).map Capture.step
          = List.range' 1 k) := by
  have hsteps : ((captureLoop [1, 3, 5, 8, 10] 10
      (fun i => if i = 1 then none else some "s.png")).map Capture.step
        = [1, 3, 4, 5]) := by decide
  refine ⟨hsteps, ?_⟩
  rintro ⟨k, -, hk⟩
  rw [hsteps] at hk
  have hlen := congrArg List.length hk
  simp only [List.length_range', List.length_cons, List.length_nil] at hlen
  subst hlen
  exact absurd hk (by decide)

/-- Claim C4 (amended): for all capture schedules with strictly increasing
offsets ≤ duration, the capture list's step indices are strictly increasing
values drawn from 1..n, where n is the schedule length (a failed capture is
omitted and leaves a gap, so the indices need not be a contiguous prefix
1..k). -/
theorem c4_steps_increasing (times : List Int) (duration : Int)
    (cap : Nat → Option String) (hinc : times.Pairwise (· < ·))
    (hle : ∀ t ∈ times, t ≤ duration) :
    ((captureLoop times duration cap).map Capture.step).Pairwise (· < ·) ∧
      ∀ s ∈ (captureLoop times duration cap).map Capture.step,
        1 ≤ s ∧ s ≤ times.length := by
  constructor
  · exact List.pairwise_map.mpr (captureLoopAux_pairwise duration cap times 0)
  · intro s hs
    rcases List.mem_map.mp hs with ⟨c, hc, rfl⟩
    have := captureLoopAux_bounds duration cap times 0 c hc
    omega

/-- Witness instantiating `c4_steps_increasing` at the code's schedule,
duration 10 and an always-succeeding capture oracle. -/
theorem c4_steps_increasing_witness :
    screenshotTimes.Pairwise (· < ·) ∧
    (∀ t ∈ screenshotTimes, t ≤ (10 : Int)) ∧
    ((captureLoop screenshotTimes 10 (fun _ => some "shot.png")).map
        Capture.step).Pairwise (· < ·) :=
  ⟨by decide, by decide,
   (c4_steps_increasing screenshotTimes 10 (fun _ => some "shot.png")
      (by decide) (by decide)).1⟩

/-! ### Claim C5 -/

/-- Claim C5 is refuted as stated: with the code's schedule and duration 6,
the last executed capture offset is 5, so the claim requires a final sleep of
6 - 5 = 1; the code computes `duration - max(screenshot_times)` = 6 - 10 and
skips the sleep, so the total slept time over the run is 5, not the requested
6 — the emulator does not keep running for its full requested duration. -/
theorem c5_counterexample :
    finalSleep screenshotTimes 6 = 0 ∧
      specFinalSleep screenshotTimes 6 = 1 ∧
      loopSleepSum 6 screenshotTimes 0 + finalSleep screenshotTimes 6 = 5 :=
  ⟨by decide, by decide, by decide⟩

/-- Claim C5 (amended): after the capture loop the scheduler sleeps
`max 0 (duration - max(schedule))`, subtracting the largest offset of the
entire schedule rather than the last executed offset; consequently the total
slept time equals the requested duration exactly when the duration is at
least the largest scheduled offset. -/
theorem c5_final_sleep (d : Int) :
    finalSleep screenshotTimes d = max 0 (d - 10) ∧
      (10 ≤ d → loopSleepSum d screenshotTimes 0 + finalSleep screenshotTimes d = d) := by
  have hmax : listMaxPy screenshotTimes = 10 := rfl
  have hf : finalSleep screenshotTimes d = max 0 (d - 10) := by
    unfold finalSleep
    rw [hmax]
    show (if d - 10 > 0 then d - 10 else 0) = max 0 (d - 10)
    split <;> omega
  refine ⟨hf, fun hd => ?_⟩
  have c1 : (1 : Int) ≤ d := by omega
  have c3 : (3 : Int) ≤ d := by omega
  have c5 : (5 : Int) ≤ d := by omega
  have c8 : (8 : Int) ≤ d := by omega
  have c10 : (10 : Int) ≤ d := hd
  have hsum : loopSleepSum d screenshotTimes 0 = 10 := by
    simp [loopSleepSum, screenshotTimes, c1, c3, c5, c8, c10]
  rw [hsum, hf, max_eq_right (by omega : (0 : Int) ≤ d - 10)]
  omega

/-- Witness instantiating `c5_final_sleep` at duration 12. -/
theorem c5_final_sleep_witness :
    (10 : Int) ≤ 12 ∧
      loopSleepSum 12 screenshotTimes 0 + finalSleep screenshotTimes 12 = 12 :=
  ⟨by decide, (c5_final_sleep 12).2 (by decide)⟩

/-! ### Claim C6 -/

/-- Claim C6: the code's scheduler sleeps the fixed schedule difference
`next offset - previous offset`, never subtracting the time actually spent in
the previous capture call.  With the code's schedule, duration 10 and a first
capture call that takes 2 seconds, the captures fire at wall-clock times
[1, 5, 7, 10, 12] — every capture after the first drifts 2 seconds late and
the drift compounds past the session duration — whereas the drift-resistant
scheduler the spec defines as the intended behaviour fires them at the target
offsets [1, 3, 5, 8, 10]. -/
theorem c6_code_drifts :
    codeFireTimes screenshotTimes 10 (fun i => if i = 0 then 2 else 0)
        = [1, 5, 7, 10, 12] ∧
      specFireTimes screenshotTimes 10 (fun i => if i = 0 then 2 else 0)
        = [1, 3, 5, 8, 10] ∧
      codeFireTimes screenshotTimes 10 (fun i => if i = 0 then 2 else 0) ≠
        specFireTimes screenshotTimes 10 (fun i => if i = 0 then 2 else 0) :=
  ⟨by decide, by decide, by decide⟩

/-! ### Claim C7 -/

/-- No status-issue string (prefix "Emulator error: ") equals the
output-issue string: they differ at character index 9. -/
theorem emulator_error_ne (x : String) :
    "Emulator error: " ++ x ≠ "Emulator reported errors" := fun h => by
  have h1 : (("Emulator error: " ++ x).data.drop 9).head? = some 'e' := rfl
  rw [h] at h1
  exact absurd h1 (by decide)

/-- No screenshot-size issue string (prefix "Screenshot ") equals the
output-issue string: they differ at the first character. -/
theorem screenshot_prefix_ne (x : String) :
    "Screenshot " ++ x ≠ "Emulator reported errors" := fun h => by
  have h1 : ("Screenshot " ++ x).data.head? = some 'S' := rfl
  rw [h] at h1
  exact absurd h1 (by decide)

/-- The per-screenshot size checks never produce the output-issue string. -/
theorem target_not_mem_sizeIssues (fs : String → Option Nat) (c : Capture) :
    "Emulator reported errors" ∉ sizeIssues fs c := by
  unfold sizeIssues
  rcases fs c.file with _ | sz
  · simp
  · dsimp only
    split
    · simp only [List.mem_singleton]
      exact fun h => screenshot_prefix_ne _ h.symm
    · split
      · simp only [List.mem_singleton]
        exact fun h => screenshot_prefix_ne _ h.symm
      · simp

/-- Claim C7 is refuted as stated: a session whose captured stderr contains
"Error" (as the early-exit drain produces) but whose stdout is clean is
analyzed without the "Emulator reported errors" issue — the code only scans
`emulator_output` (tools/ai_dev_tool.py lines 269-270), never
`emulator_stderr`. -/
theorem c7_counterexample :
    pyLowerContains "Error: could not initialize video" "error" = true ∧
      "Emulator reported errors" ∉
        (analyzeSession (fun _ => some 5000)
          { session_id := "20250101_120000", program := "pacman.prg",
            duration := 10, screenshots := [],
            gif_recording := some "dev_screenshots/recording_20250101_120000.gif",
            emulator_output := "",
            emulator_stderr := "Error: could not initialize video",
            status := .emulator_exited_early, program_exists := true,
            emulator_pid := some 42, error := none }).issues_detected :=
  ⟨by decide, by decide⟩

/-- Claim C7 (amended): for every session and filesystem, the analysis
contains the "Emulator reported errors" issue exactly when the captured
stdout (`emulator_output`) contains "error" case-insensitively; the captured
stderr is never examined by the rule. -/
theorem c7_output_error_issue (fs : String → Option Nat) (s : SessionData) :
    ("Emulator reported errors" ∈ (analyzeSession fs s).issues_detected) ↔
      pyLowerContains s.emulator_output "error" = true := by
  have h4 : "Emulator reported errors" ∉ (s.screenshots.map (sizeIssues fs)).flatten := by
    simp only [List.mem_flatten, List.mem_map, not_exists, not_and]
    rintro l ⟨c, -, rfl⟩
    exact target_not_mem_sizeIssues fs c
  have h1 : "Emulator reported errors" ∉
      (if s.screenshots.length = 0 then ["No screenshots captured"]
       else ([] : List String)) := by
    split <;> simp
  have h2 : "Emulator reported errors" ∉
      (if s.status = Status.error then
        ["Emulator error: " ++ s.error.getD "Unknown"]
       else ([] : List String)) := by
    split
    · simp only [List.mem_singleton]
      exact fun h => emulator_error_ne _ h.symm
    · simp
  by_cases hc : pyLowerContains s.emulator_output "error" <;>
    simp [analyzeSession, List.mem_append, h1, h2, h4, hc]

end PacmanX16
